import Mathlib

/-!
Verification of `src/quant_interview/data_get.py` (`generate_quant_dataset`).

The script enumerates 5 tickers × the 365 calendar days of 2023 and, for each
pair, draws random values and emits one row unless the pair is skipped
(weekend thinning, post-delisting dates).  The embedding below is shallow:

* a calendar day is its offset from 2023-01-01 (`0 = 2023-01-01`,
  `364 = 2023-12-31`); 2023-01-01 was a Sunday, so Python's
  `date.weekday()` (Monday = 0) is `(6 + day) % 7`;
* prices are exact rationals; `np.nan` price fields are `Option ℚ` with
  `none` for NaN;
* the numpy global generator is abstracted by a map `g : String → ℕ → Draws`
  giving, for each (ticker, day) iteration, the values of the random draws
  that iteration can consume.  `np.random.uniform a b` is modelled as
  `a + u * (b - a)` for a unit draw `u` clamped to `[0,1]`, and
  `np.random.randint 30 60` as `30 + x % 30` for an arbitrary `x : ℕ`,
  exactly the possible outputs.  Theorems quantify over `g`, hence hold for
  every realisable stream of draws; with the fixed seed (`np.random.seed(42)`,
  line 18 of the source) the stream, and so `g`, is determined.
-/

/-- Python `date.weekday()` for the day at `offset` days after 2023-01-01
(Monday = 0, …, Sunday = 6); 2023-01-01 was a Sunday. -/
def weekday (day : ℕ) : ℕ := (6 + day) % 7

/-- Offset (from 2023-01-01) of the first day of month `m` of 2023. -/
def monthStart : ℕ → ℕ
  | 1 => 0 | 2 => 31 | 3 => 59 | 4 => 90 | 5 => 120 | 6 => 151
  | 7 => 181 | 8 => 212 | 9 => 243 | 10 => 273 | 11 => 304 | _ => 334

/-- The month (1–12) of the 2023 day at offset `day`. -/
def month (day : ℕ) : ℕ :=
  if day < 31 then 1 else if day < 59 then 2 else if day < 90 then 3
  else if day < 120 then 4 else if day < 151 then 5 else if day < 181 then 6
  else if day < 212 then 7 else if day < 243 then 8 else if day < 273 then 9
  else if day < 304 then 10 else if day < 334 then 11 else 12

/-- Python `quarter_month = ((date.month - 1) // 3) * 3 + 1`. -/
def quarter_month (m : ℕ) : ℕ := ((m - 1) / 3) * 3 + 1

/-- `datetime(date.year, quarter_month, 1) - timedelta(days=1)` as an offset
from 2023-01-01 (it is `-1`, i.e. 2022-12-31, for the first quarter). -/
def report_offset (day : ℕ) : ℤ := (monthStart (quarter_month (month day)) : ℤ) - 1

/-- The random values one (ticker, day) iteration of the loop can consume,
in source order.  Unit draws stand for `np.random.uniform` outputs via
`uniform` below; `lagDraw` feeds `np.random.randint(30, 60)` as
`30 + lagDraw % 30`. -/
structure Draws where
  /-- `np.random.rand()` in the weekend-thinning test (line 29). -/
  wkRand : ℚ
  /-- `np.random.normal(0, 2)` in the base price (line 33). -/
  noise : ℚ
  /-- `np.random.rand()` compared with 0.05 for suspension (line 36). -/
  suspRand : ℚ
  /-- `np.random.rand()` compared with 0.03 for limit-up (line 39). -/
  limUpRand : ℚ
  /-- `np.random.rand()` compared with 0.03 for limit-down (line 40). -/
  limDownRand : ℚ
  /-- `np.random.normal(0.0005, 0.02)` daily return (line 71). -/
  dailyRet : ℚ
  /-- unit draw for `np.random.uniform(low_price, high_price)` (line 75). -/
  openUnit : ℚ
  /-- unit draw for `np.random.uniform(1e5, 1e7)` (line 77). -/
  volUnit : ℚ
  /-- source of `np.random.randint(30, 60)` (line 81). -/
  lagDraw : ℕ
  /-- `np.random.rand()` compared with 0.1 for missing ROE (line 84). -/
  roeRand : ℚ
  /-- `np.random.normal(0.1, 0.05)` (line 84). -/
  roeVal : ℚ
  /-- unit draw for `np.random.uniform(10, 50)` (line 85). -/
  peUnit : ℚ
deriving DecidableEq

/-- Clamp a draw to the unit interval. -/
def unitClamp (q : ℚ) : ℚ := max 0 (min 1 q)

/-- `np.random.uniform(a, b)` given a unit draw `u`. -/
def uniform (a b u : ℚ) : ℚ := a + unitClamp u * (b - a)

/-- One record appended to `records` (the 16 dict keys of lines 87–104).
`open` is a Lean keyword, so the price fields carry the `_price` suffix of
the Python local variables.  Dates are day offsets from 2023-01-01 and are
formatted (`strftime('%Y-%m-%d')`) by `toCsvFields` at serialization. -/
structure Row where
  ts_code : String
  trade_date : ℕ
  open_price : Option ℚ
  high_price : Option ℚ
  low_price : Option ℚ
  close_price : Option ℚ
  pre_close : ℚ
  vol : ℚ
  amount : ℚ
  report_date : ℤ
  actual_publish_date : ℤ
  roe : Option ℚ
  pe : ℚ
  is_suspended : ℕ
  is_limit_up : ℕ
  is_limit_down : ℕ
deriving DecidableEq

/-- The record built for `stock` on day offset `day` from the iteration's
draws `d` (lines 33–104 of the source, minus the two `continue`s, which
`generate_quant_dataset` below applies). -/
def mkRow (stock : String) (day : ℕ) (d : Draws) : Row :=
  let base_price : ℚ := 50 + (day : ℚ) * (1/10) + d.noise
  let is_suspended := d.suspRand < 1/20
  let is_limit_up := d.limUpRand < 3/100
  let is_limit_down := d.limDownRand < 3/100
  let report_date : ℤ := report_offset day
  let actual_publish_date : ℤ := report_date + ((30 + d.lagDraw % 30 : ℕ) : ℤ)
  let roe : Option ℚ := if 1/10 < d.roeRand then some d.roeVal else none
  let pe : ℚ := uniform 10 50 d.peUnit
  if is_suspended then
    { ts_code := stock, trade_date := day,
      open_price := none, high_price := none, low_price := none,
      close_price := none, pre_close := base_price, vol := 0, amount := 0,
      report_date := report_date, actual_publish_date := actual_publish_date,
      roe := roe, pe := pe, is_suspended := 1,
      is_limit_up := if is_limit_up then 1 else 0,
      is_limit_down := if is_limit_down then 1 else 0 }
  else
    -- trap 6: Moutai ex-dividend on 2023-07-01 (offset 181)
    let base_price := if stock = "600519.SH" ∧ day = 181 then base_price * (19/20) else base_price
    -- trap 7: black swan on 2023-10-01 (offset 273)
    let base_price := if day = 273 then base_price * (7/10) else base_price
    -- (open, high, low, close)
    let prices : ℚ × ℚ × ℚ × ℚ :=
      if is_limit_up then
        let close_price := base_price * (11/10)
        (close_price, close_price, close_price * (99/100), close_price)
      else if is_limit_down then
        let close_price := base_price * (9/10)
        (close_price, close_price * (101/100), close_price, close_price)
      else
        let close_price := base_price * (1 + d.dailyRet)
        let high_price := max (close_price * (102/100)) (base_price * (103/100))
        let low_price := min (close_price * (98/100)) (base_price * (97/100))
        (uniform low_price high_price d.openUnit, high_price, low_price, close_price)
    let volume := uniform 100000 10000000 d.volUnit
    { ts_code := stock, trade_date := day,
      open_price := some prices.1, high_price := some prices.2.1,
      low_price := some prices.2.2.1, close_price := some prices.2.2.2,
      pre_close := base_price, vol := volume, amount := volume * prices.2.2.2,
      report_date := report_date, actual_publish_date := actual_publish_date,
      roe := roe, pe := pe, is_suspended := 0,
      is_limit_up := if is_limit_up then 1 else 0,
      is_limit_down := if is_limit_down then 1 else 0 }

/-- The five tickers (line 22). -/
def stocks : List String := ["600519.SH", "300750.SZ", "601318.SH", "000001.SZ", "688981.SH"]

/-- Line 29: `if date.weekday() >= 5 and np.random.rand() > 0.3: continue`. -/
def weekendSkip (day : ℕ) (d : Draws) : Bool :=
  decide (5 ≤ weekday day) && decide ((3/10 : ℚ) < d.wkRand)

/-- Line 43: `if stock == '688981.SH' and date > datetime(2023, 6, 1): continue`
(2023-06-01 is offset 151). -/
def delisted (stock : String) (day : ℕ) : Bool :=
  (stock == "688981.SH") && decide (151 < day)

/-- The full generation loop: the list `records` as a function of the random
draws.  `np.random.seed(42)` makes the draws, hence `g`, deterministic. -/
def generate_quant_dataset (g : String → ℕ → Draws) : List Row :=
  stocks.flatMap fun stock =>
    (List.range 365).filterMap fun day =>
      if weekendSkip day (g stock day) then none
      else if delisted stock day then none
      else some (mkRow stock day (g stock day))

/-- Header of the output file: the dict keys in insertion order, which is the
column order `pd.DataFrame` and `to_csv` preserve. -/
def headerFields : List String :=
  ["ts_code", "trade_date", "open", "high", "low", "close", "pre_close",
   "vol", "amount", "report_date", "actual_publish_date", "roe", "pe",
   "is_suspended", "is_limit_up", "is_limit_down"]

/-- Zero-padded two-digit numeral. -/
def pad2 (n : ℕ) : String := if n < 10 then "0" ++ toString n else toString n

/-- `strftime('%Y-%m-%d')` on a day offset from 2023-01-01 (the only negative
offset the script produces is `-1` = 2022-12-31). -/
def dateStr (n : ℤ) : String :=
  if n < 0 then "2022-12-31"
  else "2023-" ++ pad2 (month n.toNat) ++ "-" ++ pad2 (n.toNat - monthStart (month n.toNat) + 1)

/-- A rational rendered for the CSV cell. -/
def ratStr (q : ℚ) : String := toString q

/-- An optional rational rendered for the CSV cell (pandas writes NaN cells
as empty). -/
def optStr : Option ℚ → String
  | none => ""
  | some q => ratStr q

/-- The 16 cells of one CSV line, in column order. -/
def toCsvFields (r : Row) : List String :=
  [r.ts_code, dateStr (r.trade_date : ℤ), optStr r.open_price, optStr r.high_price,
   optStr r.low_price, optStr r.close_price, ratStr r.pre_close, ratStr r.vol,
   ratStr r.amount, dateStr r.report_date, dateStr r.actual_publish_date,
   optStr r.roe, ratStr r.pe, toString r.is_suspended, toString r.is_limit_up,
   toString r.is_limit_down]

/-- One comma-separated line of the CSV. -/
def csvLine (fields : List String) : String := String.intercalate "," fields

/-- Line 90: `output_path = 'quant_interview_data.csv'`. -/
def output_path : String := "quant_interview_data.csv"

/-- The lines of the file `df.to_csv(output_path, index=False)` writes:
a header line followed by one line per row. -/
def csvFile (rows : List Row) : List String :=
  csvLine headerFields :: rows.map fun r => csvLine (toCsvFields r)

/-- A draw record that triggers none of the probabilistic traps and keeps
weekend rows (`wkRand ≤ 0.3`). -/
def d0 : Draws :=
  { wkRand := 0, noise := 0, suspRand := 1, limUpRand := 1, limDownRand := 1,
    dailyRet := 0, openUnit := 0, volUnit := 0, lagDraw := 0, roeRand := 1,
    roeVal := 0, peUnit := 0 }

/-- A constant stream of quiet draws. -/
def g0 : String → ℕ → Draws := fun _ _ => d0

/-- Quiet draws except that the limit-up test fires. -/
def dLimUp : Draws := { d0 with limUpRand := 0 }

/-- A constant stream on which every emitted row is limit-up. -/
def gLimUp : String → ℕ → Draws := fun _ _ => dLimUp

/-- Quiet draws except that the suspension test fires. -/
def dSusp : Draws := { d0 with suspRand := 0 }

/-- A constant stream on which every emitted row is suspended. -/
def gSusp : String → ℕ → Draws := fun _ _ => dSusp

/-! ### Field lemmas for `mkRow` -/

lemma mkRow_ts_code (s : String) (day : ℕ) (d : Draws) : (mkRow s day d).ts_code = s := by
  by_cases h : d.suspRand < 1/20
  · simp only [mkRow]; rw [if_pos h]
  · simp only [mkRow]; rw [if_neg h]

lemma mkRow_trade_date (s : String) (day : ℕ) (d : Draws) : (mkRow s day d).trade_date = day := by
  by_cases h : d.suspRand < 1/20
  · simp only [mkRow]; rw [if_pos h]
  · simp only [mkRow]; rw [if_neg h]

lemma mkRow_is_suspended (s : String) (day : ℕ) (d : Draws) :
    (mkRow s day d).is_suspended = if d.suspRand < 1/20 then 1 else 0 := by
  by_cases h : d.suspRand < 1/20
  · simp only [mkRow]; rw [if_pos h, if_pos h]
  · simp only [mkRow]; rw [if_neg h, if_neg h]

lemma mkRow_is_limit_up (s : String) (day : ℕ) (d : Draws) :
    (mkRow s day d).is_limit_up = if d.limUpRand < 3/100 then 1 else 0 := by
  by_cases h : d.suspRand < 1/20
  · simp only [mkRow]; rw [if_pos h]
  · simp only [mkRow]; rw [if_neg h]

lemma mkRow_report_date (s : String) (day : ℕ) (d : Draws) :
    (mkRow s day d).report_date = report_offset day := by
  by_cases h : d.suspRand < 1/20
  · simp only [mkRow]; rw [if_pos h]
  · simp only [mkRow]; rw [if_neg h]

lemma mkRow_actual_publish_date (s : String) (day : ℕ) (d : Draws) :
    (mkRow s day d).actual_publish_date = report_offset day + ((30 + d.lagDraw % 30 : ℕ) : ℤ) := by
  by_cases h : d.suspRand < 1/20
  · simp only [mkRow]; rw [if_pos h]
  · simp only [mkRow]; rw [if_neg h]

/-! ### Membership in the generated dataset -/

lemma mkRow_mem_generate (g : String → ℕ → Draws) (stock : String) (day : ℕ)
    (hs : stock ∈ stocks) (hd : day < 365)
    (hw : weekendSkip day (g stock day) = false)
    (hdel : delisted stock day = false) :
    mkRow stock day (g stock day) ∈ generate_quant_dataset g := by
  refine List.mem_flatMap.mpr ⟨stock, hs, ?_⟩
  refine List.mem_filterMap.mpr ⟨day, List.mem_range.mpr hd, ?_⟩
  simp [hw, hdel]

lemma generate_mem (g : String → ℕ → Draws) (r : Row)
    (h : r ∈ generate_quant_dataset g) :
    ∃ stock ∈ stocks, ∃ day, day < 365 ∧
      weekendSkip day (g stock day) = false ∧ delisted stock day = false ∧
      r = mkRow stock day (g stock day) := by
  obtain ⟨stock, hs, hmem⟩ := List.mem_flatMap.mp h
  obtain ⟨day, hday, heq⟩ := List.mem_filterMap.mp hmem
  refine ⟨stock, hs, day, List.mem_range.mp hday, ?_⟩
  by_cases hw : weekendSkip day (g stock day)
  · simp [hw] at heq
  · by_cases hdel : delisted stock day
    · simp [hw, hdel] at heq
    · simp [hw, hdel] at heq
      exact ⟨by simp [hw], by simp [hdel], heq.symm⟩

/-- The unadjusted base price of line 33:
`50 + (date - start_date).days * 0.1 + np.random.normal(0, 2)`. -/
def rawBase (day : ℕ) (d : Draws) : ℚ := 50 + (day : ℚ) * (1/10) + d.noise

/-- The base price after the ex-dividend (line 53) and black-swan (line 57)
adjustments of the non-suspended branch. -/
def adjustedBase (s : String) (day : ℕ) (d : Draws) : ℚ :=
  let b := rawBase day d
  let b := if s = "600519.SH" ∧ day = 181 then b * (19/20) else b
  if day = 273 then b * (7/10) else b

lemma mkRow_susp (s : String) (day : ℕ) (d : Draws) (h : d.suspRand < 1/20) :
    (mkRow s day d).open_price = none ∧ (mkRow s day d).high_price = none ∧
    (mkRow s day d).low_price = none ∧ (mkRow s day d).close_price = none ∧
    (mkRow s day d).vol = 0 ∧ (mkRow s day d).amount = 0 ∧
    (mkRow s day d).pre_close = rawBase day d := by
  simp only [mkRow]; rw [if_pos h]
  exact ⟨rfl, rfl, rfl, rfl, rfl, rfl, rfl⟩

lemma mkRow_pre_close (s : String) (day : ℕ) (d : Draws) :
    (mkRow s day d).pre_close =
      if d.suspRand < 1/20 then rawBase day d else adjustedBase s day d := by
  by_cases h : d.suspRand < 1/20
  · simp only [mkRow]; rw [if_pos h, if_pos h]; rfl
  · simp only [mkRow]; rw [if_neg h, if_neg h]; rfl

lemma mkRow_not_susp_amount (s : String) (day : ℕ) (d : Draws) (h : ¬ d.suspRand < 1/20) :
    ∃ c, (mkRow s day d).close_price = some c ∧
      (mkRow s day d).amount = (mkRow s day d).vol * c := by
  simp only [mkRow]; rw [if_neg h]
  exact ⟨_, rfl, rfl⟩

lemma mkRow_limit_up (s : String) (day : ℕ) (d : Draws)
    (h : (mkRow s day d).is_limit_up = 1) :
    (mkRow s day d).close_price = (mkRow s day d).open_price ∧
    (mkRow s day d).close_price = (mkRow s day d).high_price := by
  by_cases hs : d.suspRand < 1/20
  · simp only [mkRow]; rw [if_pos hs]; exact ⟨rfl, rfl⟩
  · by_cases hu : d.limUpRand < 3/100
    · simp only [mkRow]; rw [if_neg hs, if_pos hu]; exact ⟨rfl, rfl⟩
    · rw [mkRow_is_limit_up, if_neg hu] at h; exact absurd h (by decide)

/-! ### Claims about every row of the generated dataset -/

/-- C1: every row of the generated dataset with `is_limit_up == 1` has its
close price equal to both its open price and its high price (for a
suspended limit-up row all three are NaN). -/
theorem limit_up_close_eq_open_and_high (g : String → ℕ → Draws) (r : Row)
    (hr : r ∈ generate_quant_dataset g) (h : r.is_limit_up = 1) :
    r.close_price = r.open_price ∧ r.close_price = r.high_price := by
  obtain ⟨s, hs, day, hd, hw, hdel, rfl⟩ := generate_mem g r hr
  exact mkRow_limit_up s day (g s day) h

theorem limit_up_close_eq_open_and_high_witness :
    (mkRow "600519.SH" 2 (gLimUp "600519.SH" 2)).close_price =
        (mkRow "600519.SH" 2 (gLimUp "600519.SH" 2)).open_price ∧
    (mkRow "600519.SH" 2 (gLimUp "600519.SH" 2)).close_price =
        (mkRow "600519.SH" 2 (gLimUp "600519.SH" 2)).high_price :=
  limit_up_close_eq_open_and_high gLimUp _
    (mkRow_mem_generate gLimUp "600519.SH" 2 (by decide) (by decide) (by decide) (by decide))
    (by rw [mkRow_is_limit_up]; norm_num [gLimUp, dLimUp, d0])

/-- C2: every row of the generated dataset with `is_suspended == 1` has NaN
open, high, low and close prices and zero volume. -/
theorem suspended_rows_nan_prices_zero_vol (g : String → ℕ → Draws) (r : Row)
    (hr : r ∈ generate_quant_dataset g) (h : r.is_suspended = 1) :
    r.open_price = none ∧ r.high_price = none ∧ r.low_price = none ∧
    r.close_price = none ∧ r.vol = 0 := by
  obtain ⟨s, hs, day, hd, hw, hdel, rfl⟩ := generate_mem g r hr
  by_cases hsus : (g s day).suspRand < 1/20
  · have hfields := mkRow_susp s day (g s day) hsus
    exact ⟨hfields.1, hfields.2.1, hfields.2.2.1, hfields.2.2.2.1, hfields.2.2.2.2.1⟩
  · rw [mkRow_is_suspended, if_neg hsus] at h; exact absurd h (by decide)

theorem suspended_rows_nan_prices_zero_vol_witness :
    (mkRow "600519.SH" 2 (gSusp "600519.SH" 2)).open_price = none ∧
    (mkRow "600519.SH" 2 (gSusp "600519.SH" 2)).high_price = none ∧
    (mkRow "600519.SH" 2 (gSusp "600519.SH" 2)).low_price = none ∧
    (mkRow "600519.SH" 2 (gSusp "600519.SH" 2)).close_price = none ∧
    (mkRow "600519.SH" 2 (gSusp "600519.SH" 2)).vol = 0 :=
  suspended_rows_nan_prices_zero_vol gSusp _
    (mkRow_mem_generate gSusp "600519.SH" 2 (by decide) (by decide) (by decide) (by decide))
    (by rw [mkRow_is_suspended]; norm_num [gSusp, dSusp, d0])

/-- C4: every row's `actual_publish_date` is `report_date + d` days for some
integer `d` with `30 ≤ d ≤ 59` (`np.random.randint(30, 60)`). -/
theorem publish_lag_in_range (g : String → ℕ → Draws) (r : Row)
    (hr : r ∈ generate_quant_dataset g) :
    ∃ dd : ℕ, 30 ≤ dd ∧ dd ≤ 59 ∧
      r.actual_publish_date = r.report_date + (dd : ℤ) := by
  obtain ⟨s, hs, day, hd, hw, hdel, rfl⟩ := generate_mem g r hr
  refine ⟨30 + (g s day).lagDraw % 30, by omega, ?_, ?_⟩
  · have hlt : (g s day).lagDraw % 30 < 30 := Nat.mod_lt _ (by decide)
    omega
  · rw [mkRow_actual_publish_date, mkRow_report_date]

theorem publish_lag_in_range_witness :
    ∃ dd : ℕ, 30 ≤ dd ∧ dd ≤ 59 ∧
      (mkRow "600519.SH" 2 (g0 "600519.SH" 2)).actual_publish_date =
        (mkRow "600519.SH" 2 (g0 "600519.SH" 2)).report_date + (dd : ℤ) :=
  publish_lag_in_range g0 _
    (mkRow_mem_generate g0 "600519.SH" 2 (by decide) (by decide) (by decide) (by decide))

/-- C10: every row's `amount` is `vol * close` when `is_suspended == 0` and
`0` when `is_suspended == 1` (line 96 of the source). -/
theorem amount_eq_vol_mul_close (g : String → ℕ → Draws) (r : Row)
    (hr : r ∈ generate_quant_dataset g) :
    (r.is_suspended = 0 → ∃ c, r.close_price = some c ∧ r.amount = r.vol * c) ∧
    (r.is_suspended = 1 → r.amount = 0) := by
  obtain ⟨s, hs, day, hd, hw, hdel, rfl⟩ := generate_mem g r hr
  by_cases hsus : (g s day).suspRand < 1/20
  · refine ⟨fun h0 => ?_, fun _ => (mkRow_susp s day _ hsus).2.2.2.2.2.1⟩
    rw [mkRow_is_suspended, if_pos hsus] at h0; exact absurd h0 (by decide)
  · refine ⟨fun _ => mkRow_not_susp_amount s day _ hsus, fun h1 => ?_⟩
    rw [mkRow_is_suspended, if_neg hsus] at h1; exact absurd h1 (by decide)

theorem amount_eq_vol_mul_close_witness :
    ((mkRow "600519.SH" 2 (g0 "600519.SH" 2)).is_suspended = 0 →
      ∃ c, (mkRow "600519.SH" 2 (g0 "600519.SH" 2)).close_price = some c ∧
        (mkRow "600519.SH" 2 (g0 "600519.SH" 2)).amount =
          (mkRow "600519.SH" 2 (g0 "600519.SH" 2)).vol * c) ∧
    ((mkRow "600519.SH" 2 (g0 "600519.SH" 2)).is_suspended = 1 →
      (mkRow "600519.SH" 2 (g0 "600519.SH" 2)).amount = 0) :=
  amount_eq_vol_mul_close g0 _
    (mkRow_mem_generate g0 "600519.SH" 2 (by decide) (by decide) (by decide) (by decide))

/-- C3: the delisted ticker 688981.SH never has a row with trade date
strictly after 2023-06-01 (offset 151), and the delisting rule skips no
other ticker: for any other ticker, a weekday-thinning-surviving (ticker,
day) pair is always emitted, whatever side of the cutoff the day is on. -/
theorem delisted_ticker_cutoff (g : String → ℕ → Draws) :
    (∀ r ∈ generate_quant_dataset g, r.ts_code = "688981.SH" → r.trade_date ≤ 151) ∧
    (∀ s ∈ stocks, s ≠ "688981.SH" → ∀ day : ℕ, day < 365 →
      weekendSkip day (g s day) = false →
      mkRow s day (g s day) ∈ generate_quant_dataset g) := by
  constructor
  · intro r hr hcode
    obtain ⟨s, hs, day, hd, hw, hdel, rfl⟩ := generate_mem g r hr
    rw [mkRow_ts_code] at hcode
    rw [mkRow_trade_date]
    subst hcode
    simp [delisted] at hdel
    omega
  · intro s hs hne day hd hw
    exact mkRow_mem_generate g s day hs hd hw (by simp [delisted, hne])

theorem delisted_ticker_cutoff_witness :
    (mkRow "688981.SH" 10 (g0 "688981.SH" 10)).trade_date ≤ 151 ∧
    mkRow "600519.SH" 200 (g0 "600519.SH" 200) ∈ generate_quant_dataset g0 := by
  constructor
  · exact (delisted_ticker_cutoff g0).1 _
      (mkRow_mem_generate g0 "688981.SH" 10 (by decide) (by decide) (by decide) (by decide))
      (by rw [mkRow_ts_code])
  · exact (delisted_ticker_cutoff g0).2 "600519.SH" (by decide) (by decide) 200
      (by decide) (by decide)

/-- C7: the generation procedure is a function of the seeded draw stream
alone, so runs with equal streams (as the fixed `np.random.seed(42)`
guarantees) produce identical datasets, in particular of equal row count. -/
theorem generate_quant_dataset_deterministic (g1 g2 : String → ℕ → Draws)
    (h : g1 = g2) :
    generate_quant_dataset g1 = generate_quant_dataset g2 ∧
    (generate_quant_dataset g1).length = (generate_quant_dataset g2).length := by
  subst h; exact ⟨rfl, rfl⟩

theorem generate_quant_dataset_deterministic_witness :
    generate_quant_dataset g0 = generate_quant_dataset g0 ∧
    (generate_quant_dataset g0).length = (generate_quant_dataset g0).length :=
  generate_quant_dataset_deterministic g0 g0 rfl

/-- C8: every serialized row has exactly the 16 fields of the header, in
the dict-insertion column order, the file is comma-separated, named
`quant_interview_data.csv`, and carries a header line followed by one line
per row. -/
theorem csv_schema :
    output_path = "quant_interview_data.csv" ∧
    headerFields = ["ts_code", "trade_date", "open", "high", "low", "close",
      "pre_close", "vol", "amount", "report_date", "actual_publish_date",
      "roe", "pe", "is_suspended", "is_limit_up", "is_limit_down"] ∧
    headerFields.length = 16 ∧
    (∀ r : Row, (toCsvFields r).length = 16) ∧
    (∀ rows : List Row, (csvFile rows).length = rows.length + 1 ∧
      (csvFile rows).head? = some (String.intercalate "," headerFields)) := by
  refine ⟨rfl, rfl, rfl, fun r => rfl, fun rows => ⟨?_, rfl⟩⟩
  simp [csvFile]

/-! ### The pre_close adjustments (ex-dividend and black swan) -/

lemma adjustedBase_other (s : String) (day : ℕ) (d : Draws)
    (h1 : ¬(s = "600519.SH" ∧ day = 181)) (h2 : day ≠ 273) :
    adjustedBase s day d = rawBase day d := by
  simp only [adjustedBase]
  rw [if_neg h1, if_neg h2]

lemma adjustedBase_exdiv (d : Draws) :
    adjustedBase "600519.SH" 181 d = rawBase 181 d * (19/20) := by
  simp only [adjustedBase]
  norm_num

lemma adjustedBase_shock (s : String) (d : Draws) :
    adjustedBase s 273 d = rawBase 273 d * (7/10) := by
  simp only [adjustedBase]
  norm_num

/-- C5 as stated is false: the black-swan multiplier sits inside the
non-suspended branch, so a suspended row emitted on 2023-10-01 (offset 273)
records the unadjusted base price as `pre_close`, not `base * 0.7`. -/
theorem shock_applies_to_all_rows_false :
    ∃ r ∈ generate_quant_dataset gSusp, r.trade_date = 273 ∧
      r.pre_close ≠ rawBase 273 (gSusp r.ts_code 273) * (7/10) := by
  refine ⟨mkRow "600519.SH" 273 (gSusp "600519.SH" 273),
    mkRow_mem_generate gSusp "600519.SH" 273 (by decide) (by decide) ?hw (by decide),
    mkRow_trade_date "600519.SH" 273 (gSusp "600519.SH" 273), ?hne⟩
  case hw => norm_num [weekendSkip, gSusp, dSusp, d0, weekday]
  case hne =>
    rw [mkRow_ts_code, mkRow_pre_close,
      if_pos (show (gSusp "600519.SH" 273).suspRand < 1/20 by norm_num [gSusp, dSusp, d0])]
    norm_num [rawBase, gSusp, dSusp, d0]

/-- C5 amended: on 2023-10-01 every non-suspended row records its base
price multiplied by 0.7 as `pre_close`; a suspended row emitted that day
keeps the unadjusted base price. -/
theorem shock_date_multiplier (g : String → ℕ → Draws) (r : Row)
    (hr : r ∈ generate_quant_dataset g) (hdate : r.trade_date = 273) :
    (r.is_suspended = 0 → r.pre_close = rawBase 273 (g r.ts_code 273) * (7/10)) ∧
    (r.is_suspended = 1 → r.pre_close = rawBase 273 (g r.ts_code 273)) := by
  obtain ⟨s, hs, day, hd, hw, hdel, rfl⟩ := generate_mem g r hr
  rw [mkRow_trade_date] at hdate
  subst hdate
  rw [mkRow_ts_code, mkRow_is_suspended, mkRow_pre_close]
  by_cases hsus : (g s 273).suspRand < 1/20
  · rw [if_pos hsus, if_pos hsus]
    exact ⟨fun h0 => absurd h0 (by decide), fun _ => rfl⟩
  · rw [if_neg hsus, if_neg hsus]
    exact ⟨fun _ => adjustedBase_shock s _, fun h1 => absurd h1 (by decide)⟩

theorem shock_date_multiplier_witness :
    ((mkRow "000001.SZ" 273 (g0 "000001.SZ" 273)).is_suspended = 0 →
      (mkRow "000001.SZ" 273 (g0 "000001.SZ" 273)).pre_close =
        rawBase 273 (g0 (mkRow "000001.SZ" 273 (g0 "000001.SZ" 273)).ts_code 273) * (7/10)) ∧
    ((mkRow "000001.SZ" 273 (g0 "000001.SZ" 273)).is_suspended = 1 →
      (mkRow "000001.SZ" 273 (g0 "000001.SZ" 273)).pre_close =
        rawBase 273 (g0 (mkRow "000001.SZ" 273 (g0 "000001.SZ" 273)).ts_code 273)) :=
  shock_date_multiplier g0 _
    (mkRow_mem_generate g0 "000001.SZ" 273 (by decide) (by decide)
      (by norm_num [weekendSkip, g0, d0, weekday]) (by decide))
    (mkRow_trade_date "000001.SZ" 273 (g0 "000001.SZ" 273))

/-- C6 as stated is false: the ex-dividend discount sits inside the
non-suspended branch, so a suspended 600519.SH row emitted on 2023-07-01
(offset 181) records the unadjusted base price, not `base * 0.95`. -/
theorem exdiv_applies_to_all_rows_false :
    ∃ r ∈ generate_quant_dataset gSusp, r.ts_code = "600519.SH" ∧ r.trade_date = 181 ∧
      r.pre_close ≠ rawBase 181 (gSusp "600519.SH" 181) * (19/20) := by
  refine ⟨mkRow "600519.SH" 181 (gSusp "600519.SH" 181),
    mkRow_mem_generate gSusp "600519.SH" 181 (by decide) (by decide) ?hw (by decide),
    mkRow_ts_code "600519.SH" 181 _, mkRow_trade_date "600519.SH" 181 _, ?hne⟩
  case hw => norm_num [weekendSkip, gSusp, dSusp, d0, weekday]
  case hne =>
    rw [mkRow_pre_close,
      if_pos (show (gSusp "600519.SH" 181).suspRand < 1/20 by norm_num [gSusp, dSusp, d0])]
    norm_num [rawBase, gSusp, dSusp, d0]

/-- C6 amended: the 0.95 ex-dividend discount is applied exactly to
600519.SH on 2023-07-01 and only to a non-suspended row; a suspended row
records the unadjusted base price, and every other (ticker, date) pair —
apart from the separate 2023-10-01 shock — also records the unadjusted
base price. -/
theorem exdiv_adjustment (g : String → ℕ → Draws) (r : Row)
    (hr : r ∈ generate_quant_dataset g) :
    (r.ts_code = "600519.SH" → r.trade_date = 181 → r.is_suspended = 0 →
      r.pre_close = rawBase 181 (g "600519.SH" 181) * (19/20)) ∧
    (r.is_suspended = 1 →
      r.pre_close = rawBase r.trade_date (g r.ts_code r.trade_date)) ∧
    (¬(r.ts_code = "600519.SH" ∧ r.trade_date = 181) → r.trade_date ≠ 273 →
      r.is_suspended = 0 →
      r.pre_close = rawBase r.trade_date (g r.ts_code r.trade_date)) := by
  obtain ⟨s, hs, day, hd, hw, hdel, rfl⟩ := generate_mem g r hr
  rw [mkRow_ts_code, mkRow_trade_date, mkRow_is_suspended, mkRow_pre_close]
  by_cases hsus : (g s day).suspRand < 1/20
  · rw [if_pos hsus, if_pos hsus]
    exact ⟨fun _ _ h0 => absurd h0 (by decide), fun _ => rfl,
           fun _ _ h0 => absurd h0 (by decide)⟩
  · rw [if_neg hsus, if_neg hsus]
    refine ⟨fun hcode hdate _ => ?_, fun h1 => absurd h1 (by decide),
            fun hne hd273 _ => ?_⟩
    · subst hcode; subst hdate; exact adjustedBase_exdiv _
    · rw [adjustedBase_other s day _ hne hd273]

theorem exdiv_adjustment_witness :
    ((mkRow "600519.SH" 181 (g0 "600519.SH" 181)).ts_code = "600519.SH" →
      (mkRow "600519.SH" 181 (g0 "600519.SH" 181)).trade_date = 181 →
      (mkRow "600519.SH" 181 (g0 "600519.SH" 181)).is_suspended = 0 →
      (mkRow "600519.SH" 181 (g0 "600519.SH" 181)).pre_close =
        rawBase 181 (g0 "600519.SH" 181) * (19/20)) ∧
    ((mkRow "600519.SH" 181 (g0 "600519.SH" 181)).is_suspended = 1 →
      (mkRow "600519.SH" 181 (g0 "600519.SH" 181)).pre_close =
        rawBase (mkRow "600519.SH" 181 (g0 "600519.SH" 181)).trade_date
          (g0 (mkRow "600519.SH" 181 (g0 "600519.SH" 181)).ts_code
            (mkRow "600519.SH" 181 (g0 "600519.SH" 181)).trade_date)) ∧
    (¬((mkRow "600519.SH" 181 (g0 "600519.SH" 181)).ts_code = "600519.SH" ∧
        (mkRow "600519.SH" 181 (g0 "600519.SH" 181)).trade_date = 181) →
      (mkRow "600519.SH" 181 (g0 "600519.SH" 181)).trade_date ≠ 273 →
      (mkRow "600519.SH" 181 (g0 "600519.SH" 181)).is_suspended = 0 →
      (mkRow "600519.SH" 181 (g0 "600519.SH" 181)).pre_close =
        rawBase (mkRow "600519.SH" 181 (g0 "600519.SH" 181)).trade_date
          (g0 (mkRow "600519.SH" 181 (g0 "600519.SH" 181)).ts_code
            (mkRow "600519.SH" 181 (g0 "600519.SH" 181)).trade_date)) :=
  exdiv_adjustment g0 _
    (mkRow_mem_generate g0 "600519.SH" 181 (by decide) (by decide)
      (by norm_num [weekendSkip, g0, d0, weekday]) (by decide))

/-! ### C9: exactly one row per ticker and weekday -/

lemma weekendSkip_of_weekday (day : ℕ) (d : Draws) (h : weekday day < 5) :
    weekendSkip day d = false := by
  have h5 : ¬(5 ≤ weekday day) := by omega
  simp [weekendSkip, h5]

lemma countP_range_single (f : ℕ → Bool) (n k : ℕ) (hk : k < n)
    (h : ∀ x, x ≠ k → f x = false) :
    (List.range n).countP f = if f k then 1 else 0 := by
  induction n with
  | zero => omega
  | succ n ih =>
    rw [List.range_succ, List.countP_append]
    by_cases hnk : n = k
    · subst hnk
      have h0 : (List.range n).countP f = 0 := List.countP_eq_zero.mpr fun a ha => by
        have hne : a ≠ n := Nat.ne_of_lt (List.mem_range.mp ha)
        simp [h a hne]
      rw [h0]
      simp [List.countP_cons]
    · have hk2 : k < n := by omega
      rw [ih hk2]
      have hfn : f n = false := h n hnk
      simp [List.countP_cons, hfn]

lemma countP_perStock (g : String → ℕ → Draws) (s stock : String) (day : ℕ)
    (hday : day < 365) (hwd : weekday day < 5) :
    ((List.range 365).filterMap fun d2 =>
        if weekendSkip d2 (g stock d2) then none
        else if delisted stock d2 then none
        else some (mkRow stock d2 (g stock d2))).countP
      (fun r => r.ts_code == s && r.trade_date == day) =
    if stock = s then (if delisted stock day then 0 else 1) else 0 := by
  rw [List.countP_filterMap]
  rw [countP_range_single _ 365 day hday ?hoff]
  case hoff =>
    intro x hx
    by_cases hw : weekendSkip x (g stock x)
    · simp [hw]
    · by_cases hdel : delisted stock x
      · simp [hw, hdel]
      · simp [hw, hdel, mkRow_trade_date, hx]
  · by_cases hdel : delisted stock day
    · simp [weekendSkip_of_weekday day _ hwd, hdel]
    · by_cases hcode : stock = s
      · subst hcode
        simp [weekendSkip_of_weekday day _ hwd, hdel, mkRow_ts_code, mkRow_trade_date]
      · simp [weekendSkip_of_weekday day _ hwd, hdel, mkRow_ts_code, mkRow_trade_date, hcode]

/-- C9: random thinning drops only weekend dates: for every ticker and every
Monday-through-Friday day offset of 2023, the generated dataset has exactly
one row, whatever the draws, except that the delisted ticker 688981.SH has
no row at all on days strictly after 2023-06-01 (offset 151). -/
theorem weekday_exactly_one_row (g : String → ℕ → Draws) (s : String)
    (hs : s ∈ stocks) (day : ℕ) (hday : day < 365) (hwd : weekday day < 5) :
    (generate_quant_dataset g).countP
        (fun r => r.ts_code == s && r.trade_date == day) =
      if s = "688981.SH" ∧ 151 < day then 0 else 1 := by
  have key := fun stock => countP_perStock g s stock day hday hwd
  simp only [generate_quant_dataset, stocks, List.flatMap_cons, List.flatMap_nil,
    List.countP_append, List.countP_nil, List.append_nil]
  rw [key "600519.SH", key "300750.SZ", key "601318.SH", key "000001.SZ", key "688981.SH"]
  simp only [stocks, List.mem_cons, List.not_mem_nil, or_false] at hs
  rcases hs with rfl | rfl | rfl | rfl | rfl <;> simp [delisted]

theorem weekday_exactly_one_row_witness :
    (generate_quant_dataset g0).countP
        (fun r => r.ts_code == "600519.SH" && r.trade_date == 2) = 1 := by
  have h := weekday_exactly_one_row g0 "600519.SH" (by decide) 2 (by decide) (by decide)
  simpa using h
